import Mathlib

/-!
Shallow embedding of the cc-ceevee ingestion-enrichment pipeline.

Source files embedded:
- `src/lib/pdf.ts`: `extractCandidateName`, `buildSearchQuery` (pure heuristics).
- `src/actions/scanCv.ts`: `scanCv`, the pipeline orchestrator, modelled as a
  pure function of the input file and an environment describing the outcome of
  each external effect (database client creation, object-store upload, record
  inserts/updates, PDF text extraction, the Tavily search call).  The side
  effects it performs are collected in an event trace; a small interpreter
  replays the trace onto a world state (stored objects, scan rows, scan_result
  rows).

JavaScript strings are modelled as Lean `String` (the texts in question are
ASCII, where JS UTF-16 semantics and Lean character semantics agree);
JS numbers carried through unchanged (the Tavily relevance score) are
modelled as `Rat`.  `console.log`/`console.error` output is not modelled:
no claim depends on log content, only on whether a failure aborts the run.
-/

namespace CcCeevee

/-! ## JavaScript string primitives

The JS string operations used by the source (`split("\n")`, `trim()`,
`slice(0, n)`, `toLowerCase()`, `includes`-style substring search via regex
`test`) are modelled over the string's character list, where they agree with
the JS semantics on the ASCII texts in question and reduce inside the
kernel. -/

/-- Accumulator loop for `s.split("\n")`. -/
def splitNewlineAux : List Char → List Char → List (List Char)
  | [], acc => [acc.reverse]
  | c :: cs, acc =>
      if c = '\n' then acc.reverse :: splitNewlineAux cs []
      else splitNewlineAux cs (c :: acc)

/-- JS `s.split("\n")`. -/
def jsSplitNewline (s : String) : List String :=
  (splitNewlineAux s.toList []).map String.mk

/-- JS `s.trim()`: strip leading and trailing whitespace. -/
def jsTrim (s : String) : String :=
  String.mk
    (((s.toList.dropWhile Char.isWhitespace).reverse.dropWhile Char.isWhitespace).reverse)

/-- JS `s.slice(0, n)`: the first `n` characters of `s`. -/
def jsSlice (s : String) (n : Nat) : String :=
  String.mk (s.toList.take n)

/-- JS `s.toLowerCase()` (ASCII case folding). -/
def jsToLower (s : String) : String :=
  String.mk (s.toList.map Char.toLower)

/-- Does `pat` occur at the head of `cs`? -/
def charsLeadWith : List Char → List Char → Bool
  | [], _ => true
  | _ :: _, [] => false
  | p :: ps, c :: cs => p = c && charsLeadWith ps cs

/-- Does `pat` occur anywhere in `s` (JS `/pat/.test(s)` for a literal
pattern)? -/
def jsIncludes (s pat : String) : Bool :=
  (List.range (s.toList.length + 1)).any
    (fun i => charsLeadWith pat.toList (s.toList.drop i))

/-! ## `src/lib/pdf.ts` -/

/-- The character class of the regex `/[@|http|www|resume|curriculum|cv]/i`
in `extractCandidateName`.  Note the source writes a *character class*, not
an alternation: the regex matches any single character among the listed
letters and symbols, case-insensitively. -/
def nameDenyChars : List Char :=
  ['@', '|', 'h', 't', 'p', 'w', 'r', 'e', 's', 'u', 'm', 'c', 'i', 'l', 'v']

/-- Regex test `/[@|http|www|resume|curriculum|cv]/i.test(s)`: does `s` contain any
character of the class, ignoring case? -/
def nameDenyTest (s : String) : Bool :=
  s.toList.any (fun c => nameDenyChars.contains c.toLower)

/-- Function `extractCandidateName` from `src/lib/pdf.ts`:
split on newlines, trim, drop empty lines (`.filter(Boolean)`); return the
first line if it is shorter than 60 characters and the denylist regex does
not match it, else `null`. -/
def extractCandidateName (text : String) : Option String :=
  let lines := ((jsSplitNewline text).map jsTrim).filter (fun l => l ≠ "")
  match lines with
  | [] => none
  | firstLine :: _ =>
      if firstLine.length < 60 ∧ nameDenyTest firstLine = false then
        some firstLine
      else
        none

/-- The two keyword patterns `[/linkedin/i, /github/i]` of `buildSearchQuery`
(their `.source` strings, which is what the code pushes). -/
def searchPatterns : List String := ["linkedin", "github"]

/-- Function `buildSearchQuery` from `src/lib/pdf.ts`.  The `keywords` list is computed
exactly as in the source (name, then each pattern whose source occurs in the
lowercased first 500 characters) but, as in the source, it is never used in
the returned query. -/
def buildSearchQuery (text : String) (name : Option String) : String :=
  let snippet := jsToLower (jsSlice text 500)
  let keywords : List String :=
    (match name with | some n => [n] | none => []) ++
      searchPatterns.filter (fun p => jsIncludes snippet p)
  let query :=
    match name with
    | some n => n ++ " professional background work experience"
    | none => "candidate profile: " ++ jsSlice text 200
  let _ := keywords
  query

/-! ## `src/actions/scanCv.ts` -/

/-- Constant `MAX_FILE_SIZE = 10 * 1024 * 1024` (10 MiB). -/
def MAX_FILE_SIZE : Nat := 10 * 1024 * 1024

/-- The `File` obtained from `formData.get("file")`.  In the browser API
`file.size` is the length of the file's byte content, so an empty byte
payload is exactly `size = 0`; the byte content itself is otherwise opaque
to the orchestrator (extraction outcomes are supplied by the environment). -/
structure FileInput where
  name : String
  size : Nat
  mimeType : String
deriving DecidableEq, Repr

/-- One row of the `scans` table. -/
structure ScanRow where
  id : Nat
  file_name : String
  file_path : String
  file_size : Nat
  status : String
  error_message : Option String := none
  extracted_name : Option String := none
  extracted_text : Option String := none
  search_query : Option String := none
  summary : Option String := none
deriving DecidableEq, Repr

/-- One row of the `scan_results` table (the Tavily relevance score, a JS
number, is modelled as a rational). -/
structure ScanResultRow where
  scan_id : Nat
  title : String
  url : String
  content : String
  score : Rat
deriving DecidableEq, Repr

/-- A partial update of a `scans` row, as passed to
`supabase.from("scans").update({...})`: `none` fields are left untouched,
`some v` fields are set to `v` (nullable columns can be set to SQL NULL by
`some none`). -/
structure ScanUpdate where
  status : Option String := none
  error_message : Option (Option String) := none
  extracted_name : Option (Option String) := none
  extracted_text : Option (Option String) := none
  search_query : Option (Option String) := none
  summary : Option (Option String) := none
deriving DecidableEq, Repr

/-- Apply a partial update to a row. -/
def applyUpdate (r : ScanRow) (u : ScanUpdate) : ScanRow :=
  { r with
    status := u.status.getD r.status
    error_message := u.error_message.getD r.error_message
    extracted_name := u.extracted_name.getD r.extracted_name
    extracted_text := u.extracted_text.getD r.extracted_text
    search_query := u.search_query.getD r.search_query
    summary := u.summary.getD r.summary }

/-- The side effects `scanCv` performs, in order.  Only effects that actually
change durable state are recorded: a provider call that fails writes
nothing. -/
inductive Event where
  | uploadObject (path : String)
  | removeObject (path : String)
  | insertScan (row : ScanRow)
  | updateScan (id : Nat) (upd : ScanUpdate)
  | insertResults (rows : List ScanResultRow)
deriving DecidableEq, Repr

/-- Durable state: the `cvs` storage bucket and the two tables. -/
structure World where
  cvsObjects : List String := []
  scans : List ScanRow := []
  scan_results : List ScanResultRow := []
deriving DecidableEq, Repr

def applyEvent (w : World) (e : Event) : World :=
  match e with
  | .uploadObject p => { w with cvsObjects := w.cvsObjects ++ [p] }
  | .removeObject p => { w with cvsObjects := w.cvsObjects.filter (fun q => q ≠ p) }
  | .insertScan r => { w with scans := w.scans ++ [r] }
  | .updateScan id u =>
      { w with scans := w.scans.map (fun r => if r.id = id then applyUpdate r u else r) }
  | .insertResults rows => { w with scan_results := w.scan_results ++ rows }

/-- Replay an event trace onto the empty world. -/
def runEvents (trace : List Event) : World :=
  trace.foldl applyEvent {}

/-- A Tavily result item (`title`, `url`, `content`, `score`). -/
structure TavilyItem where
  title : String
  url : String
  content : String
  score : Rat
deriving DecidableEq, Repr

/-- The Tavily response used by `scanCv`: the ordered result list and the
optional synthesized `answer`. -/
structure TavilyResponse where
  results : List TavilyItem
  answer : Option String
deriving DecidableEq, Repr

/-- JS `x || fallback` on an optional string: the fallback is used when
`x` is absent (`undefined`/`null`) or the empty string (both falsy). -/
def orDefault (answer : Option String) (fallback : String) : String :=
  match answer with
  | some a => if a = "" then fallback else a
  | none => fallback

/-- The outcome of each external effect of one `scanCv` run, fixed up front:
the timestamp used in the storage path, whether `createClient` succeeds,
the storage upload outcome (`some msg` = error with that message), the
`scans` insert outcome (error message, or the id the store assigns to the
new row), the `extractTextFromPdf` outcome (throws, or the extracted text),
the `searchTavily` outcome (throws, or the parsed response), whether the
`scan_results` bulk insert fails, and whether the final `scans` update
succeeds (on failure the row is not modified and `.single()` yields an
error). -/
structure Env where
  now : Nat
  clientOk : Bool
  uploadError : Option String
  scanInsert : Except String Nat
  extractResult : Except Unit String
  tavilyResult : Except Unit TavilyResponse
  resultsInsertError : Option String
  updateOk : Bool

/-- What `scanCv` returns: `{ error: string }` or `{ data: ScanWithResults }`
(the finalized row together with its `scan_results(*)`). -/
inductive ScanOutcome where
  | fail (error : String)
  | data (scan : ScanRow) (results : List ScanResultRow)
deriving DecidableEq, Repr

/-- Function `scanCv` from `src/actions/scanCv.ts`, as a pure function of the posted
file (`none` when `formData.get("file")` yields nothing) and the environment.
Returns the trace of durable side effects and the value returned to the
caller. -/
def scanCv (file? : Option FileInput) (env : Env) : List Event × ScanOutcome :=
  match file? with
  | none => ([], .fail "No file provided")
  | some file =>
    if file.size > MAX_FILE_SIZE then
      ([], .fail "File too large. Maximum 10MB.")
    else if file.mimeType ≠ "application/pdf" then
      ([], .fail "Only PDF files are supported.")
    else if env.clientOk = false then
      ([], .fail "Failed to connect to database.")
    else
      -- 1. Upload PDF to Supabase Storage
      let filePath := toString env.now ++ "-" ++ file.name
      match env.uploadError with
      | some msg => ([], .fail ("Storage upload failed: " ++ msg))
      | none =>
        -- 2. Create scan record
        match env.scanInsert with
        | .error msg =>
            ([.uploadObject filePath, .removeObject filePath],
             .fail ("Failed to create scan record: " ++ msg))
        | .ok scanId =>
          let scanRow : ScanRow :=
            { id := scanId, file_name := file.name, file_path := filePath
              file_size := file.size, status := "processing" }
          -- 3. Extract text from PDF
          match env.extractResult with
          | .error _ =>
              ([.uploadObject filePath, .insertScan scanRow,
                .updateScan scanId
                  { status := some "failed",
                    error_message := some (some "PDF parsing failed") }],
               .fail "Failed to read PDF content. Make sure it's a valid PDF.")
          | .ok extractedText =>
            let candidateName := extractCandidateName extractedText
            let searchQuery := buildSearchQuery extractedText candidateName
            -- 4. Search the web with Tavily
            match env.tavilyResult with
            | .error _ =>
                ([.uploadObject filePath, .insertScan scanRow,
                  .updateScan scanId
                    { status := some "failed",
                      error_message := some (some "Web search failed") }],
                 .fail "Web search failed. Please try again.")
            | .ok tavily =>
              -- 5. Store results
              let resultRows : List ScanResultRow := tavily.results.map (fun r =>
                { scan_id := scanId, title := r.title, url := r.url
                  content := r.content, score := r.score })
              let resultEvents : List Event :=
                if resultRows.length > 0 then
                  match env.resultsInsertError with
                  | some _ => []   -- insert failed: error logged, nothing persisted
                  | none => [.insertResults resultRows]
                else []
              let persisted : List ScanResultRow :=
                if resultRows.length > 0 then
                  match env.resultsInsertError with
                  | some _ => []
                  | none => resultRows
                else []
              -- 6. Update scan with summary
              let finalUpd : ScanUpdate :=
                { extracted_name := some candidateName
                  extracted_text := some (some (jsSlice extractedText 5000))
                  search_query := some (some searchQuery)
                  summary := some (some (orDefault tavily.answer "No summary available."))
                  status := some "completed" }
              if env.updateOk then
                ([.uploadObject filePath, .insertScan scanRow] ++ resultEvents ++
                   [.updateScan scanId finalUpd],
                 .data (applyUpdate scanRow finalUpd) persisted)
              else
                ([.uploadObject filePath, .insertScan scanRow] ++ resultEvents,
                 .fail "Failed to save scan results.")

/-- Observer: did `scanCv` return `{ data: ... }` (as opposed to `{ error }`)? -/
def ScanOutcome.isData : ScanOutcome → Bool
  | .data _ _ => true
  | .fail _ => false

/-! ## Concrete fixtures for witnesses and counterexamples -/

/-- A valid 50 KB PDF upload. -/
def fileOk : FileInput := { name := "a.pdf", size := 51200, mimeType := "application/pdf" }

/-- A stub enrichment response with two result items and a synthesized answer. -/
def stubTavily : TavilyResponse :=
  { results :=
      [{ title := "r1", url := "https://one.example", content := "c1", score := 9/10 },
       { title := "r2", url := "https://two.example", content := "c2", score := 4/5 }],
    answer := some "Synthesized answer" }

/-- An environment in which every external effect succeeds. -/
def envAllOk : Env :=
  { now := 0, clientOk := true, uploadError := none, scanInsert := .ok 7,
    extractResult := .ok "Jordan Lee\nSenior Engineer",
    tavilyResult := .ok stubTavily, resultsInsertError := none, updateOk := true }

/-! ## Claims -/

/-- C1: the claim expects `extractCandidateName` to return the first line
"Jordan Lee" (short, containing no denylisted marker); the code returns
`none`, because `/[@|http|www|resume|curriculum|cv]/i` is a character class
matching any single character among its letters (here 'r', 'e', 'l', ...),
not an alternation of the marker words. -/
theorem c1_regex_rejects_jordan_lee :
    extractCandidateName "Jordan Lee\nSenior Software Engineer" = none ∧
    ("Jordan Lee".length < 60) ∧
    nameDenyTest "Jordan Lee" = true := by
  refine ⟨?_, by decide, by decide⟩
  decide

/-- Helper: the closed form of `buildSearchQuery` (the dead keyword
computation drops out). -/
theorem buildSearchQuery_shape (text : String) (name : Option String) :
    buildSearchQuery text name =
      match name with
      | some n => n ++ " professional background work experience"
      | none => "candidate profile: " ++ jsSlice text 200 := by
  cases name <;> rfl

/-- C7: `buildSearchQuery` returns `"{name} professional background work
experience"` when a name was derived, and otherwise `"candidate profile: "`
followed by the first 200 characters of the raw text; it is a pure function
of its two inputs, hence deterministic. -/
theorem c7_buildSearchQuery_pure (text : String) (name : Option String) :
    buildSearchQuery text name =
      (match name with
      | some n => n ++ " professional background work experience"
      | none => "candidate profile: " ++ jsSlice text 200) ∧
    buildSearchQuery text name = buildSearchQuery text name :=
  ⟨buildSearchQuery_shape text name, rfl⟩

/-- C9: the query depends only on the derived name and the first 200
characters of the text; in particular the keyword scan of the first 500
characters has no effect on the result. -/
theorem c9_query_from_first_200_chars (t t' : String) (name : Option String)
    (h : jsSlice t 200 = jsSlice t' 200) :
    buildSearchQuery t name = buildSearchQuery t' name := by
  rw [buildSearchQuery_shape, buildSearchQuery_shape]
  cases name with
  | none => simp [h]
  | some n => rfl

set_option maxRecDepth 4000 in
/-- Witness for C9: two texts sharing their first 200 characters, one of
which contains "linkedin" inside the scanned 500-character window, yield the
same query. -/
theorem c9_query_from_first_200_chars_witness :
    jsSlice (String.mk (List.replicate 200 'a')) 200 =
      jsSlice (String.mk (List.replicate 200 'a') ++ "linkedin") 200 ∧
    buildSearchQuery (String.mk (List.replicate 200 'a')) none =
      buildSearchQuery (String.mk (List.replicate 200 'a') ++ "linkedin") none := by
  refine ⟨by decide, ?_⟩
  exact c9_query_from_first_200_chars _ _ none (by decide)

/-- C2 (counterexample): an empty file (zero bytes) with the correct
mimeType is not rejected: the run proceeds to the object-store write, a
Scan row is inserted, and the call succeeds — refuting the claim that
empty bytes are rejected before any side effect. -/
theorem c2_empty_bytes_not_rejected :
    ((scanCv (some { name := "a.pdf", size := 0, mimeType := "application/pdf" })
        envAllOk).2).isData = true ∧
    (runEvents (scanCv (some { name := "a.pdf", size := 0, mimeType := "application/pdf" })
        envAllOk).1).cvsObjects = ["0-a.pdf"] ∧
    (runEvents (scanCv (some { name := "a.pdf", size := 0, mimeType := "application/pdf" })
        envAllOk).1).scans.length = 1 := by
  decide

/-- C2 (amended): `scanCv` rejects — returning an error with no side
effect, hence no Scan row and no stored object — whenever the mimeType is
not "application/pdf" or the size exceeds the 10 MiB ceiling; emptiness of
the bytes is not checked. Every file passing these checks proceeds to the
object-store write (here: when the client connects and the upload
succeeds, the object is written). -/
theorem c2_validation (file : FileInput) (env : Env) :
    ((file.mimeType ≠ "application/pdf" ∨ MAX_FILE_SIZE < file.size) →
        (scanCv (some file) env).1 = [] ∧
        ∃ msg, (scanCv (some file) env).2 = ScanOutcome.fail msg) ∧
    (file.mimeType = "application/pdf" → file.size ≤ MAX_FILE_SIZE →
        env.clientOk = true → env.uploadError = none →
        Event.uploadObject (toString env.now ++ "-" ++ file.name) ∈
          (scanCv (some file) env).1) := by
  obtain ⟨fname, fsize, fmime⟩ := file
  obtain ⟨now, clientOk, uploadError, scanInsert, extractResult, tavilyResult,
    resultsInsertError, updateOk⟩ := env
  constructor
  · rintro (hmime | hsize)
    · replace hmime : fmime ≠ "application/pdf" := hmime
      by_cases hbig : fsize > MAX_FILE_SIZE
      · exact ⟨by simp [scanCv, hbig], "File too large. Maximum 10MB.",
          by simp [scanCv, hbig]⟩
      · exact ⟨by simp [scanCv, hbig, hmime], "Only PDF files are supported.",
          by simp [scanCv, hbig, hmime]⟩
    · replace hsize : MAX_FILE_SIZE < fsize := hsize
      exact ⟨by simp [scanCv, hsize], "File too large. Maximum 10MB.",
        by simp [scanCv, hsize]⟩
  · intro hmime hsize hclient hupload
    replace hmime : fmime = "application/pdf" := hmime
    replace hsize : fsize ≤ MAX_FILE_SIZE := hsize
    replace hclient : clientOk = true := hclient
    replace hupload : uploadError = none := hupload
    subst hmime hclient hupload
    have hbig : ¬ (fsize > MAX_FILE_SIZE) := by omega
    cases scanInsert with
    | error msg => simp [scanCv, hbig]
    | ok scanId =>
      cases extractResult with
      | error e => simp [scanCv, hbig]
      | ok text =>
        cases tavilyResult with
        | error e => simp [scanCv, hbig]
        | ok resp =>
          by_cases hupd : updateOk = true <;>
            simp [scanCv, hbig, hupd]

/-- Witness for C2 (amended): a text/plain upload is rejected with no side
effects, and a valid PDF upload in an all-ok environment reaches the
object-store write. -/
theorem c2_validation_witness :
    ((scanCv (some { name := "a.txt", size := 100, mimeType := "text/plain" })
        envAllOk).1 = [] ∧
     ∃ msg, (scanCv (some { name := "a.txt", size := 100, mimeType := "text/plain" })
        envAllOk).2 = ScanOutcome.fail msg) ∧
    Event.uploadObject (toString envAllOk.now ++ "-" ++ fileOk.name) ∈
      (scanCv (some fileOk) envAllOk).1 := by
  refine ⟨(c2_validation _ envAllOk).1 (Or.inl (by decide)), ?_⟩
  exact (c2_validation fileOk envAllOk).2 rfl (by decide) rfl rfl

/-- C3: when the object-store upload succeeds and the Scan insert fails,
`scanCv` deletes the just-written object at its path and aborts with a
persistence error; afterwards no stored object and no Scan row remain. -/
theorem c3_insert_failure_compensates (file : FileInput) (env : Env) (msg : String)
    (hsize : file.size ≤ MAX_FILE_SIZE)
    (htype : file.mimeType = "application/pdf")
    (hclient : env.clientOk = true)
    (hupload : env.uploadError = none)
    (hinsert : env.scanInsert = .error msg) :
    scanCv (some file) env =
      ([.uploadObject (toString env.now ++ "-" ++ file.name),
        .removeObject (toString env.now ++ "-" ++ file.name)],
       .fail ("Failed to create scan record: " ++ msg)) ∧
    (runEvents (scanCv (some file) env).1).cvsObjects = [] ∧
    (runEvents (scanCv (some file) env).1).scans = [] := by
  obtain ⟨fname, fsize, fmime⟩ := file
  obtain ⟨now, clientOk, uploadError, scanInsert, extractResult, tavilyResult,
    resultsInsertError, updateOk⟩ := env
  replace htype : fmime = "application/pdf" := htype
  replace hsize : fsize ≤ MAX_FILE_SIZE := hsize
  replace hclient : clientOk = true := hclient
  replace hupload : uploadError = none := hupload
  replace hinsert : scanInsert = .error msg := hinsert
  subst htype hclient hupload hinsert
  have hbig : ¬ (fsize > MAX_FILE_SIZE) := by omega
  refine ⟨by simp [scanCv, hbig], ?_, ?_⟩ <;>
    simp [scanCv, hbig, runEvents, applyEvent]

/-- Witness for C3: concrete insert failure after a successful upload
leaves an empty bucket and no Scan row. -/
theorem c3_insert_failure_compensates_witness :
    scanCv (some fileOk) { envAllOk with scanInsert := .error "duplicate key" } =
      ([.uploadObject (toString envAllOk.now ++ "-" ++ fileOk.name),
        .removeObject (toString envAllOk.now ++ "-" ++ fileOk.name)],
       .fail ("Failed to create scan record: " ++ "duplicate key")) ∧
    (runEvents (scanCv (some fileOk)
        { envAllOk with scanInsert := .error "duplicate key" }).1).cvsObjects = [] ∧
    (runEvents (scanCv (some fileOk)
        { envAllOk with scanInsert := .error "duplicate key" }).1).scans = [] :=
  c3_insert_failure_compensates fileOk _ "duplicate key"
    (by decide) rfl rfl rfl rfl

/-- C4 (counterexample): two runs failing at the same stage (the storage
upload) with different internal error messages return different
caller-visible error strings — the provider message is interpolated into
the returned error, refuting the claim that no internal error text reaches
the caller. -/
theorem c4_upload_error_leaks_message :
    (scanCv (some fileOk) { envAllOk with uploadError := some "bucket quota exceeded" }).2 ≠
    (scanCv (some fileOk) { envAllOk with uploadError := some "network reset" }).2 := by
  decide

/-- C4 (amended): failures at the PDF-parse, web-search and final-update
stages return fixed display-safe strings independent of the internal error;
storage-upload and scan-insert failures, however, return a fixed prefix
followed by the provider's own error message. -/
theorem c4_error_strings (file : FileInput) (env : Env)
    (htype : file.mimeType = "application/pdf")
    (hsize : file.size ≤ MAX_FILE_SIZE)
    (hclient : env.clientOk = true) :
    (∀ msg, env.uploadError = some msg →
        (scanCv (some file) env).2 = .fail ("Storage upload failed: " ++ msg)) ∧
    (∀ msg, env.uploadError = none → env.scanInsert = .error msg →
        (scanCv (some file) env).2 = .fail ("Failed to create scan record: " ++ msg)) ∧
    (∀ scanId, env.uploadError = none → env.scanInsert = .ok scanId →
        env.extractResult = .error () →
        (scanCv (some file) env).2 =
          .fail "Failed to read PDF content. Make sure it's a valid PDF.") ∧
    (∀ scanId text, env.uploadError = none → env.scanInsert = .ok scanId →
        env.extractResult = .ok text → env.tavilyResult = .error () →
        (scanCv (some file) env).2 = .fail "Web search failed. Please try again.") ∧
    (∀ scanId text resp, env.uploadError = none → env.scanInsert = .ok scanId →
        env.extractResult = .ok text → env.tavilyResult = .ok resp →
        env.updateOk = false →
        (scanCv (some file) env).2 = .fail "Failed to save scan results.") := by
  obtain ⟨fname, fsize, fmime⟩ := file
  obtain ⟨now, clientOk, uploadError, scanInsert, extractResult, tavilyResult,
    resultsInsertError, updateOk⟩ := env
  replace htype : fmime = "application/pdf" := htype
  replace hsize : fsize ≤ MAX_FILE_SIZE := hsize
  replace hclient : clientOk = true := hclient
  subst htype hclient
  have hbig : ¬ (fsize > MAX_FILE_SIZE) := by omega
  refine ⟨?_, ?_, ?_, ?_, ?_⟩
  · intro msg hup
    replace hup : uploadError = some msg := hup
    subst hup
    simp [scanCv, hbig]
  · intro msg hup hins
    replace hup : uploadError = none := hup
    replace hins : scanInsert = .error msg := hins
    subst hup hins
    simp [scanCv, hbig]
  · intro scanId hup hins hext
    replace hup : uploadError = none := hup
    replace hins : scanInsert = .ok scanId := hins
    replace hext : extractResult = .error () := hext
    subst hup hins hext
    simp [scanCv, hbig]
  · intro scanId text hup hins hext htav
    replace hup : uploadError = none := hup
    replace hins : scanInsert = .ok scanId := hins
    replace hext : extractResult = .ok text := hext
    replace htav : tavilyResult = .error () := htav
    subst hup hins hext htav
    simp [scanCv, hbig]
  · intro scanId text resp hup hins hext htav hupd
    replace hup : uploadError = none := hup
    replace hins : scanInsert = .ok scanId := hins
    replace hext : extractResult = .ok text := hext
    replace htav : tavilyResult = .ok resp := htav
    replace hupd : updateOk = false := hupd
    subst hup hins hext htav hupd
    simp [scanCv, hbig]

/-- Witness for C4 (amended): a concrete web-search failure returns the
fixed display string. -/
theorem c4_error_strings_witness :
    (scanCv (some fileOk) { envAllOk with tavilyResult := .error () }).2 =
      ScanOutcome.fail "Web search failed. Please try again." := by
  have h := c4_error_strings fileOk { envAllOk with tavilyResult := .error () }
    rfl (by decide) rfl
  exact h.2.2.2.1 7 "Jordan Lee\nSenior Engineer" rfl rfl rfl rfl

/-- C5: when text extraction fails after the Scan row exists, the Scan row
ends with status "failed", the fixed non-null error message, a null
extracted_text, the uploaded object still stored at the recorded path, and
the caller receives the fixed structured error. -/
theorem c5_extraction_failure_state (file : FileInput) (env : Env) (scanId : Nat)
    (htype : file.mimeType = "application/pdf")
    (hsize : file.size ≤ MAX_FILE_SIZE)
    (hclient : env.clientOk = true)
    (hupload : env.uploadError = none)
    (hinsert : env.scanInsert = .ok scanId)
    (hextract : env.extractResult = .error ()) :
    (runEvents (scanCv (some file) env).1).scans =
      [{ id := scanId, file_name := file.name,
         file_path := toString env.now ++ "-" ++ file.name,
         file_size := file.size, status := "failed",
         error_message := some "PDF parsing failed",
         extracted_name := none, extracted_text := none,
         search_query := none, summary := none }] ∧
    (runEvents (scanCv (some file) env).1).cvsObjects =
      [toString env.now ++ "-" ++ file.name] ∧
    (scanCv (some file) env).2 =
      .fail "Failed to read PDF content. Make sure it's a valid PDF." := by
  obtain ⟨fname, fsize, fmime⟩ := file
  obtain ⟨now, clientOk, uploadError, scanInsert, extractResult, tavilyResult,
    resultsInsertError, updateOk⟩ := env
  replace htype : fmime = "application/pdf" := htype
  replace hsize : fsize ≤ MAX_FILE_SIZE := hsize
  replace hclient : clientOk = true := hclient
  replace hupload : uploadError = none := hupload
  replace hinsert : scanInsert = .ok scanId := hinsert
  replace hextract : extractResult = .error () := hextract
  subst htype hclient hupload hinsert hextract
  have hbig : ¬ (fsize > MAX_FILE_SIZE) := by omega
  refine ⟨?_, ?_, ?_⟩ <;>
    simp [scanCv, hbig, runEvents, applyEvent, applyUpdate]

/-- Witness for C5: a concrete corrupt-document run. -/
theorem c5_extraction_failure_state_witness :
    (runEvents (scanCv (some fileOk)
        { envAllOk with extractResult := .error () }).1).scans =
      [{ id := 7, file_name := fileOk.name,
         file_path := toString envAllOk.now ++ "-" ++ fileOk.name,
         file_size := fileOk.size, status := "failed",
         error_message := some "PDF parsing failed",
         extracted_name := none, extracted_text := none,
         search_query := none, summary := none }] ∧
    (runEvents (scanCv (some fileOk)
        { envAllOk with extractResult := .error () }).1).cvsObjects =
      [toString envAllOk.now ++ "-" ++ fileOk.name] ∧
    (scanCv (some fileOk) { envAllOk with extractResult := .error () }).2 =
      ScanOutcome.fail "Failed to read PDF content. Make sure it's a valid PDF." :=
  c5_extraction_failure_state fileOk _ 7 rfl (by decide) rfl rfl rfl rfl

/-- Helper: whenever a run reaches the final update and the update
succeeds, the `scans` table holds exactly the finalized row (whatever the
fate of the `scan_results` bulk insert), and the caller receives data. -/
theorem scanCv_completed_scan_row (file : FileInput) (env : Env) (scanId : Nat)
    (text : String) (resp : TavilyResponse)
    (htype : file.mimeType = "application/pdf")
    (hsize : file.size ≤ MAX_FILE_SIZE)
    (hclient : env.clientOk = true)
    (hupload : env.uploadError = none)
    (hinsert : env.scanInsert = .ok scanId)
    (hextract : env.extractResult = .ok text)
    (htavily : env.tavilyResult = .ok resp)
    (hupd : env.updateOk = true) :
    (runEvents (scanCv (some file) env).1).scans =
      [{ id := scanId, file_name := file.name,
         file_path := toString env.now ++ "-" ++ file.name,
         file_size := file.size, status := "completed",
         error_message := none,
         extracted_name := extractCandidateName text,
         extracted_text := some (jsSlice text 5000),
         search_query := some (buildSearchQuery text (extractCandidateName text)),
         summary := some (orDefault resp.answer "No summary available.") }] ∧
    ((scanCv (some file) env).2).isData = true := by
  obtain ⟨fname, fsize, fmime⟩ := file
  obtain ⟨now, clientOk, uploadError, scanInsert, extractResult, tavilyResult,
    resultsInsertError, updateOk⟩ := env
  replace htype : fmime = "application/pdf" := htype
  replace hsize : fsize ≤ MAX_FILE_SIZE := hsize
  replace hclient : clientOk = true := hclient
  replace hupload : uploadError = none := hupload
  replace hinsert : scanInsert = .ok scanId := hinsert
  replace hextract : extractResult = .ok text := hextract
  replace htavily : tavilyResult = .ok resp := htavily
  replace hupd : updateOk = true := hupd
  subst htype hclient hupload hinsert hextract htavily hupd
  have hbig : ¬ (fsize > MAX_FILE_SIZE) := by omega
  rcases resp with ⟨results, answer⟩
  cases results with
  | nil =>
      refine ⟨?_, ?_⟩ <;>
        simp [scanCv, hbig, runEvents, applyEvent, applyUpdate, ScanOutcome.isData]
  | cons a as =>
      cases resultsInsertError with
      | none =>
          refine ⟨?_, ?_⟩ <;>
            simp [scanCv, hbig, runEvents, applyEvent, applyUpdate, ScanOutcome.isData]
      | some msg =>
          refine ⟨?_, ?_⟩ <;>
            simp [scanCv, hbig, runEvents, applyEvent, applyUpdate, ScanOutcome.isData]

/-- C6: when enrichment succeeds with `k` result items and the bulk insert
succeeds, exactly `k` ScanResult rows exist — one per item, in provider
order, each carrying the owning Scan's identifier — and the Scan row ends
with status "completed". -/
theorem c6_k_result_rows (file : FileInput) (env : Env) (scanId : Nat)
    (text : String) (resp : TavilyResponse)
    (htype : file.mimeType = "application/pdf")
    (hsize : file.size ≤ MAX_FILE_SIZE)
    (hclient : env.clientOk = true)
    (hupload : env.uploadError = none)
    (hinsert : env.scanInsert = .ok scanId)
    (hextract : env.extractResult = .ok text)
    (htavily : env.tavilyResult = .ok resp)
    (hres : env.resultsInsertError = none)
    (hupd : env.updateOk = true) :
    (runEvents (scanCv (some file) env).1).scan_results =
      resp.results.map (fun r =>
        { scan_id := scanId, title := r.title, url := r.url,
          content := r.content, score := r.score }) ∧
    (∀ row ∈ (runEvents (scanCv (some file) env).1).scan_results,
        row.scan_id = scanId) ∧
    (runEvents (scanCv (some file) env).1).scan_results.length =
      resp.results.length ∧
    ∃ s, (runEvents (scanCv (some file) env).1).scans = [s] ∧
      s.status = "completed" ∧ s.id = scanId := by
  have hscan := scanCv_completed_scan_row file env scanId text resp
    htype hsize hclient hupload hinsert hextract htavily hupd
  have hrows : (runEvents (scanCv (some file) env).1).scan_results =
      resp.results.map (fun r =>
        { scan_id := scanId, title := r.title, url := r.url,
          content := r.content, score := r.score }) := by
    obtain ⟨fname, fsize, fmime⟩ := file
    obtain ⟨now, clientOk, uploadError, scanInsert, extractResult, tavilyResult,
      resultsInsertError, updateOk⟩ := env
    replace htype : fmime = "application/pdf" := htype
    replace hsize : fsize ≤ MAX_FILE_SIZE := hsize
    replace hclient : clientOk = true := hclient
    replace hupload : uploadError = none := hupload
    replace hinsert : scanInsert = .ok scanId := hinsert
    replace hextract : extractResult = .ok text := hextract
    replace htavily : tavilyResult = .ok resp := htavily
    replace hres : resultsInsertError = none := hres
    replace hupd : updateOk = true := hupd
    subst htype hclient hupload hinsert hextract htavily hres hupd
    have hbig : ¬ (fsize > MAX_FILE_SIZE) := by omega
    rcases resp with ⟨results, answer⟩
    cases results with
    | nil => simp [scanCv, hbig, runEvents, applyEvent]
    | cons a as => simp [scanCv, hbig, runEvents, applyEvent]
  refine ⟨hrows, ?_, ?_, ?_⟩
  · intro row hrow
    rw [hrows] at hrow
    obtain ⟨r, _, rfl⟩ := List.mem_map.mp hrow
    rfl
  · rw [hrows, List.length_map]
  · exact ⟨_, hscan.1, rfl, rfl⟩

/-- Witness for C6: the stub enrichment provider returning 2 results
yields exactly 2 ScanResult rows and a completed Scan. -/
theorem c6_k_result_rows_witness :
    (runEvents (scanCv (some fileOk) envAllOk).1).scan_results.length =
      stubTavily.results.length ∧
    ∃ s, (runEvents (scanCv (some fileOk) envAllOk).1).scans = [s] ∧
      s.status = "completed" ∧ s.id = 7 := by
  have h := c6_k_result_rows fileOk envAllOk 7 "Jordan Lee\nSenior Engineer"
    stubTavily rfl (by decide) rfl rfl rfl rfl rfl rfl rfl
  exact ⟨h.2.2.1, h.2.2.2⟩

/-- C8: when the bulk insert of ScanResult rows fails after a successful
enrichment call, the pipeline does not abort: the caller still receives
data, the Scan row is finalized to status "completed" with its summary,
and no result rows are persisted. -/
theorem c8_results_insert_failure_does_not_abort (file : FileInput) (env : Env)
    (scanId : Nat) (text : String) (resp : TavilyResponse) (msg : String)
    (htype : file.mimeType = "application/pdf")
    (hsize : file.size ≤ MAX_FILE_SIZE)
    (hclient : env.clientOk = true)
    (hupload : env.uploadError = none)
    (hinsert : env.scanInsert = .ok scanId)
    (hextract : env.extractResult = .ok text)
    (htavily : env.tavilyResult = .ok resp)
    (hres : env.resultsInsertError = some msg)
    (hnonempty : resp.results ≠ [])
    (hupd : env.updateOk = true) :
    ((scanCv (some file) env).2).isData = true ∧
    (∃ s, (runEvents (scanCv (some file) env).1).scans = [s] ∧
        s.status = "completed" ∧
        s.summary = some (orDefault resp.answer "No summary available.")) ∧
    (runEvents (scanCv (some file) env).1).scan_results = [] := by
  have hscan := scanCv_completed_scan_row file env scanId text resp
    htype hsize hclient hupload hinsert hextract htavily hupd
  refine ⟨hscan.2, ⟨_, hscan.1, rfl, rfl⟩, ?_⟩
  obtain ⟨fname, fsize, fmime⟩ := file
  obtain ⟨now, clientOk, uploadError, scanInsert, extractResult, tavilyResult,
    resultsInsertError, updateOk⟩ := env
  replace htype : fmime = "application/pdf" := htype
  replace hsize : fsize ≤ MAX_FILE_SIZE := hsize
  replace hclient : clientOk = true := hclient
  replace hupload : uploadError = none := hupload
  replace hinsert : scanInsert = .ok scanId := hinsert
  replace hextract : extractResult = .ok text := hextract
  replace htavily : tavilyResult = .ok resp := htavily
  replace hres : resultsInsertError = some msg := hres
  replace hupd : updateOk = true := hupd
  subst htype hclient hupload hinsert hextract htavily hres hupd
  have hbig : ¬ (fsize > MAX_FILE_SIZE) := by omega
  rcases resp with ⟨results, answer⟩
  cases results with
  | nil => exact absurd rfl hnonempty
  | cons a as => simp [scanCv, hbig, runEvents, applyEvent]

/-- Witness for C8: a concrete failed bulk insert still finalizes the Scan
and returns data, with zero persisted result rows. -/
theorem c8_results_insert_failure_does_not_abort_witness :
    ((scanCv (some fileOk)
        { envAllOk with resultsInsertError := some "insert failed" }).2).isData = true ∧
    (∃ s, (runEvents (scanCv (some fileOk)
        { envAllOk with resultsInsertError := some "insert failed" }).1).scans = [s] ∧
        s.status = "completed" ∧
        s.summary = some (orDefault stubTavily.answer "No summary available.")) ∧
    (runEvents (scanCv (some fileOk)
        { envAllOk with resultsInsertError := some "insert failed" }).1).scan_results
      = [] :=
  c8_results_insert_failure_does_not_abort fileOk _ 7 "Jordan Lee\nSenior Engineer"
    stubTavily "insert failed" rfl (by decide) rfl rfl rfl rfl rfl rfl
    (by decide) rfl

/-- C10: on every run that reaches the final update, the summary written to
the Scan row is non-empty: the provider's answer when that is a non-empty
string, and the fixed "No summary available." when the answer is absent or
empty. -/
theorem c10_summary_fallback (file : FileInput) (env : Env) (scanId : Nat)
    (text : String) (resp : TavilyResponse)
    (htype : file.mimeType = "application/pdf")
    (hsize : file.size ≤ MAX_FILE_SIZE)
    (hclient : env.clientOk = true)
    (hupload : env.uploadError = none)
    (hinsert : env.scanInsert = .ok scanId)
    (hextract : env.extractResult = .ok text)
    (htavily : env.tavilyResult = .ok resp)
    (hupd : env.updateOk = true) :
    (∃ s, (runEvents (scanCv (some file) env).1).scans = [s] ∧
        s.status = "completed" ∧
        s.summary = some (orDefault resp.answer "No summary available.")) ∧
    orDefault resp.answer "No summary available." ≠ "" ∧
    (∀ a, resp.answer = some a → a ≠ "" →
        orDefault resp.answer "No summary available." = a) ∧
    ((resp.answer = none ∨ resp.answer = some "") →
        orDefault resp.answer "No summary available." = "No summary available.") := by
  have hscan := scanCv_completed_scan_row file env scanId text resp
    htype hsize hclient hupload hinsert hextract htavily hupd
  refine ⟨⟨_, hscan.1, rfl, rfl⟩, ?_, ?_, ?_⟩
  · cases h : resp.answer with
    | none => simp [orDefault]
    | some a =>
        by_cases ha : a = "" <;> simp [orDefault, ha]
  · intro a h ha
    rw [h]
    simp [orDefault, ha]
  · rintro (h | h) <;> rw [h] <;> simp [orDefault]

/-- Witness for C10: the stub provider's non-empty answer is written as the
summary verbatim. -/
theorem c10_summary_fallback_witness :
    (∃ s, (runEvents (scanCv (some fileOk) envAllOk).1).scans = [s] ∧
        s.status = "completed" ∧
        s.summary = some (orDefault stubTavily.answer "No summary available.")) ∧
    orDefault stubTavily.answer "No summary available." = "Synthesized answer" := by
  have h := c10_summary_fallback fileOk envAllOk 7 "Jordan Lee\nSenior Engineer"
    stubTavily rfl (by decide) rfl rfl rfl rfl rfl rfl
  exact ⟨h.1, h.2.2.1 "Synthesized answer" rfl (by decide)⟩

end CcCeevee
